import Mathlib

/-!
Verification of the dual-mode persistence layer of the money-manager client.

The definitions below are a shallow embedding of the TypeScript source:
  - `src/.../services/apiService.ts` (data-access facade and mode handling)
  - `src/.../components/Login.tsx` and the register component (auth shapes)
  - the axios config module (request/response interceptors)
  - `src/.../components/CategoryPage.tsx` (duplicate-category guard)

Remote response bodies are modelled as JSON values; `localStorage` is
modelled as an explicit `Store` record.  JavaScript truthiness is modelled
by `tru`; a missing object field is `Option.none` (JS `undefined`).
-/

/-- JSON value as delivered in a response body or stored in localStorage.
Numbers are modelled as integers (all numeric data in the claims is
integral). -/
inductive JsonVal where
  | nullV : JsonVal
  | boolV : Bool → JsonVal
  | numV : Int → JsonVal
  | strV : String → JsonVal
  | arrV : List JsonVal → JsonVal
  | objV : List (String × JsonVal) → JsonVal

open JsonVal

/-- Field access `v.k`: `none` models JS `undefined` (absent field or
non-object receiver). -/
def dget (v : JsonVal) (k : String) : Option JsonVal :=
  match v with
  | objV fields => fields.lookup k
  | _ => none

/-- Optional-chained access `v.k1?.k2` as in `response.data.data?.user`. -/
def dget2 (v : JsonVal) (k1 k2 : String) : Option JsonVal :=
  (dget v k1).bind (fun w => dget w k2)

/-- JavaScript truthiness of a value. -/
def truthy : JsonVal → Bool
  | nullV => false
  | boolV b => b
  | numV n => n != 0
  | strV s => s ≠ ""
  | arrV _ => true
  | objV _ => true

/-- JavaScript truthiness of a possibly-undefined value. -/
def tru : Option JsonVal → Bool
  | some v => truthy v
  | none => false

/-! Decimal rendering of a natural number, used for the
timestamp-based local identifiers (`'inc_' + Date.now()`) and the offline
token (`'offline_' + Date.now()`).  Written with explicit fuel so that it
computes by kernel reduction. -/

/-- Digit list of `n` in base 10, most significant first; `fuel` bounds the
recursion depth (any `fuel > n` is enough). -/
def natDigitsAux : Nat → Nat → List Nat
  | 0, _ => []
  | f + 1, n => if n < 10 then [n] else natDigitsAux f (n / 10) ++ [n % 10]

/-- Digit list of `n` in base 10, most significant first. -/
def natDigits (n : Nat) : List Nat := natDigitsAux (n + 1) n

/-- Decimal digit to character. -/
def digitCh : Nat → Char
  | 0 => '0' | 1 => '1' | 2 => '2' | 3 => '3' | 4 => '4'
  | 5 => '5' | 6 => '6' | 7 => '7' | 8 => '8' | _ => '9'

/-- Decimal string of a natural number, modelling the JS number-to-string
conversion used when building ids and tokens. -/
def natStr (n : Nat) : String := String.mk ((natDigits n).map digitCh)

/-! Authentication response extraction, from `Login.tsx` `handleSubmit`
(the register component contains the identical four-format chain).  The
four recognized formats, tried in order, are:
  1. token and user at top level,
  2. success flag with token at top level and user under data,
  3. accessToken and user at top level,
  4. token and user both under data.
The result is the pair (token, user) as left by the if/else chain, with
`none` for a still-null variable. -/

/-- Token/user extraction from a login or register response body,
mirroring the four-format if/else chain of `Login.tsx` lines 44-68. -/
def authExtract (d : JsonVal) : Option JsonVal × Option JsonVal :=
  if tru (dget d "token") && tru (dget d "user") then
    (dget d "token", dget d "user")
  else if tru (dget d "success") && tru (dget d "token") && tru (dget2 d "data" "user") then
    (dget d "token", dget2 d "data" "user")
  else if tru (dget d "accessToken") && tru (dget d "user") then
    (dget d "accessToken", dget d "user")
  else if tru (dget2 d "data" "token") && tru (dget2 d "data" "user") then
    (dget2 d "data" "token", dget2 d "data" "user")
  else
    (none, none)

/-! Collection-response normalization, from `fetchIncomes`,
`fetchExpenses`, `fetchCategories` and `filterTransactions`:
the source computes `response.data.KIND || response.data.data || response.data`
and returns it when it is an array, the empty array otherwise. -/

/-- Collection normalizer as implemented: first truthy candidate among the
resource-kind field, the data field and the body itself; returned when it
is an array, empty otherwise. -/
def normalizeCollection (kind : String) (d : JsonVal) : List JsonVal :=
  let data : JsonVal :=
    if tru (dget d kind) then (dget d kind).getD nullV
    else if tru (dget d "data") then (dget d "data").getD nullV
    else d
  match data with
  | arrV xs => xs
  | _ => []

/-- Collection normalizer as the specification describes it: try, in
priority order, a bare array, an array under the resource-kind field, an
array under data, and an array under data.KIND together with a truthy
success flag; return the first structurally valid match, else empty.
This definition follows the spec text and exists only to be compared with
`normalizeCollection`. -/
def specNormalizeCollection (kind : String) (d : JsonVal) : List JsonVal :=
  match d with
  | arrV xs => xs
  | _ =>
    match dget d kind with
    | some (arrV xs) => xs
    | _ =>
      match dget d "data" with
      | some (arrV xs) => xs
      | _ =>
        if tru (dget d "success") then
          match dget2 d "data" kind with
          | some (arrV xs) => xs
          | _ => []
        else []

/-! Integer and array string coercions, used only for rendering a
non-string user id into a localStorage key (template literal coercion).
Array elements render join-style with comma separators; null renders
empty inside a join, as in JS. -/

/-- Decimal string of an integer. -/
def intStr (n : Int) : String :=
  if n < 0 then "-" ++ natStr (-n).toNat else natStr n.toNat

mutual
/-- JS string coercion of a value, as performed by a template literal. -/
def jsToStr : JsonVal → String
  | nullV => "null"
  | boolV true => "true"
  | boolV false => "false"
  | numV n => intStr n
  | strV s => s
  | arrV xs => jsToStrArr xs
  | objV _ => "[object Object]"

/-- JS string coercion of an array: comma-joined elements, null empty. -/
def jsToStrArr : List JsonVal → String
  | [] => ""
  | [nullV] => ""
  | [x] => jsToStr x
  | nullV :: xs => "," ++ jsToStrArr xs
  | x :: xs => jsToStr x ++ "," ++ jsToStrArr xs
end

/-! The localStorage-backed state visible to the persistence layer:
the backendMode flag, the token, the serialized current user, the offline
credential records (key users) and the per-user collections, an
association list keyed by strings such as incomes_u1 in which the most
recent binding for a key wins. -/

/-- Client-side persistent state (localStorage). -/
structure Store where
  backendMode : Option String
  token : Option JsonVal
  currentUser : Option JsonVal
  usersLS : List JsonVal
  kv : List (String × List JsonVal)

/-- The helper isOfflineMode: true only when backendMode is exactly the
string offline. -/
def isOfflineMode (st : Store) : Bool := st.backendMode == some "offline"

/-- The helper getUserId followed by template-literal rendering: the
stored user's id, else its email, else the sentinel offline_user when no
current user is stored; an undefined field renders as the string
undefined. -/
def userKeyPart (st : Store) : String :=
  match st.currentUser with
  | none => "offline_user"
  | some u =>
    let v := if tru (dget u "id") then dget u "id" else dget u "email"
    match v with
    | some x => jsToStr x
    | none => "undefined"

/-- Read a collection: JSON.parse of the stored entry, empty when the key
is absent. -/
def getColl (st : Store) (key : String) : List JsonVal :=
  (st.kv.lookup key).getD []

/-- Write a collection under a key (setItem with JSON.stringify). -/
def setColl (st : Store) (key : String) (xs : List JsonVal) : Store :=
  { st with kv := (key, xs) :: st.kv }

/-! Remote call outcomes and the axios response interceptor. -/

/-- A classified remote failure: an HTTP error response carrying status
and body, or a network error (ERR_NETWORK / message Network Error). -/
inductive RemoteErr where
  | http : Nat → JsonVal → RemoteErr
  | network : RemoteErr

/-- What the remote endpoint would deliver if called. -/
inductive RemoteResult where
  | ok : JsonVal → RemoteResult
  | err : RemoteErr → RemoteResult

/-- Side effects of the axios response interceptor on a failed call:
on 401 it clears token and currentUser and sets backendMode offline; on a
network error it sets backendMode offline; other statuses only log. -/
def interceptOnError (st : Store) (e : RemoteErr) : Store :=
  match e with
  | .http s _ =>
    if s == 401 then
      { st with token := none, currentUser := none, backendMode := some "offline" }
    else st
  | .network => { st with backendMode := some "offline" }

/-- Failure surfaced to the caller of a facade operation. -/
inductive ErrInfo where
  | validation : List String → ErrInfo
  | http : Nat → JsonVal → ErrInfo
  | network : ErrInfo

/-- Map a remote failure to the error the service code rethrows from it
(message rendering is elided; status and body are carried). -/
def errInfoOf : RemoteErr → ErrInfo
  | .http s d => .http s d
  | .network => .network

/-- Result value or failure of a facade operation. -/
inductive Outcome where
  | ok : JsonVal → Outcome
  | err : ErrInfo → Outcome

/-- Result of one facade operation: the new store, whether the remote
client was invoked, and the outcome. -/
structure OpRes where
  st : Store
  remote : Bool
  out : Outcome

/-! Income facade operations from apiService.ts. -/

/-- Input of createIncome and createExpense. -/
structure IncomeInput where
  name : Option String
  categoryId : Int
  amount : Int
  date : String
  description : Option String

/-- Pre-flight validation guard of createIncome and createExpense: the
request is rejected when categoryId is falsy, amount is not positive, or
date is falsy. -/
def incomeInvalid (inc : IncomeInput) : Bool :=
  inc.categoryId == 0 || inc.amount <= 0 || inc.date == ""

/-- The missing-field list reported by the validation error. -/
def missingFields (inc : IncomeInput) : List String :=
  (if inc.categoryId == 0 then ["category"] else []) ++
  (if inc.amount <= 0 then ["amount"] else []) ++
  (if inc.date == "" then ["date"] else [])

/-- Optional string field of a record, omitted when absent (undefined
fields are dropped by JSON.stringify before storage). -/
def optField (k : String) (v : Option String) : List (String × JsonVal) :=
  match v with
  | some s => [(k, strV s)]
  | none => []

/-- Locally generated income id: the string inc_ followed by Date.now().  -/
def localIncomeId (clock : Nat) : String := "inc_" ++ natStr clock

/-- Locally generated expense id: the string exp_ followed by Date.now(). -/
def localExpenseId (clock : Nat) : String := "exp_" ++ natStr clock

/-- Locally generated category id: the string cat_ followed by Date.now(). -/
def localCategoryId (clock : Nat) : String := "cat_" ++ natStr clock

/-- The record pushed by a local create: a fresh id plus the input
fields. -/
def incomeRecord (id : String) (inc : IncomeInput) : JsonVal :=
  objV ([("id", strV id)] ++ optField "name" inc.name ++
    [("categoryId", numV inc.categoryId), ("amount", numV inc.amount),
     ("date", strV inc.date)] ++ optField "description" inc.description)

/-- The test of the delete filter: the stored record's id field strictly
equals (JS triple-equals) the string id being deleted. -/
def idMatches (x : JsonVal) (id : String) : Bool :=
  match dget x "id" with
  | some (strV s) => s == id
  | _ => false

/-- Local delete: keep every record whose id does not strictly equal the
target id. -/
def localDelete (id : String) (xs : List JsonVal) : List JsonVal :=
  xs.filter (fun x => ! idMatches x id)

/-- Name reconciliation of a remote create result: the response body with
its name field replaced by response name when truthy, the request name
otherwise (absent request name modelled as null). -/
def mergeName (d : JsonVal) (name : Option String) : JsonVal :=
  let nm : JsonVal :=
    if tru (dget d "name") then (dget d "name").getD nullV
    else match name with
         | some s => strV s
         | none => nullV
  match d with
  | objV fs => objV (fs.filter (fun p => p.1 != "name") ++ [("name", nm)])
  | _ => objV [("name", nm)]

/-- Local-branch body of createIncome: append the new record, keyed by
the current user. -/
def localCreateIncome (st : Store) (inc : IncomeInput) (clock : Nat) :
    Store × JsonVal :=
  let key := "incomes_" ++ userKeyPart st
  let newRec := incomeRecord (localIncomeId clock) inc
  (setColl st key (getColl st key ++ [newRec]), newRec)

/-- fetchIncomes: local list in offline mode; otherwise remote call with
collection normalization, falling back to the local list (after flipping
mode) on a network error, rethrowing any HTTP error. -/
def fetchIncomes (st : Store) (r : RemoteResult) : OpRes :=
  if isOfflineMode st then
    ⟨st, false, .ok (arrV (getColl st ("incomes_" ++ userKeyPart st)))⟩
  else
    match r with
    | .ok d => ⟨st, true, .ok (arrV (normalizeCollection "incomes" d))⟩
    | .err e =>
      let st1 := interceptOnError st e
      match e with
      | .network =>
        let st2 := { st1 with backendMode := some "offline" }
        ⟨st2, true, .ok (arrV (getColl st2 ("incomes_" ++ userKeyPart st2)))⟩
      | .http s d => ⟨st1, true, .err (.http s d)⟩

/-- createIncome: validation first; offline mode stores locally; online
tries the remote call, retries locally after flipping mode on a network
error, and rethrows HTTP errors without touching the local store. -/
def createIncome (st : Store) (r : RemoteResult) (inc : IncomeInput)
    (clock : Nat) : OpRes :=
  if incomeInvalid inc then ⟨st, false, .err (.validation (missingFields inc))⟩
  else if isOfflineMode st then
    let (st', v) := localCreateIncome st inc clock
    ⟨st', false, .ok v⟩
  else
    match r with
    | .ok d => ⟨st, true, .ok (mergeName d inc.name)⟩
    | .err e =>
      let st1 := interceptOnError st e
      match e with
      | .network =>
        let st2 := { st1 with backendMode := some "offline" }
        let (st', v) := localCreateIncome st2 inc clock
        ⟨st', true, .ok v⟩
      | .http s d => ⟨st1, true, .err (.http s d)⟩

/-- updateIncome: a bare remote call with no offline check and no
fallback; errors propagate after the interceptor runs. -/
def updateIncome (st : Store) (r : RemoteResult) : OpRes :=
  match r with
  | .ok d => ⟨st, true, .ok d⟩
  | .err e => ⟨interceptOnError st e, true, .err (errInfoOf e)⟩

/-- deleteIncome: local filter-and-store in offline mode with an
unconditional success result; online deletes remotely, retrying the same
delete locally (after flipping mode) on a network error. -/
def deleteIncome (st : Store) (r : RemoteResult) (id : String) : OpRes :=
  if isOfflineMode st then
    let key := "incomes_" ++ userKeyPart st
    ⟨setColl st key (localDelete id (getColl st key)), false,
      .ok (objV [("success", boolV true)])⟩
  else
    match r with
    | .ok d => ⟨st, true, .ok d⟩
    | .err e =>
      let st1 := interceptOnError st e
      match e with
      | .network =>
        let st2 := { st1 with backendMode := some "offline" }
        let key := "incomes_" ++ userKeyPart st2
        ⟨setColl st2 key (localDelete id (getColl st2 key)), true,
          .ok (objV [("success", boolV true)])⟩
      | .http s d => ⟨st1, true, .err (.http s d)⟩

/-! Expense facade operations, mirroring the income ones with the
expenses key and the exp_ id prefix. -/

/-- Local-branch body of createExpense. -/
def localCreateExpense (st : Store) (inc : IncomeInput) (clock : Nat) :
    Store × JsonVal :=
  let key := "expenses_" ++ userKeyPart st
  let newRec := incomeRecord (localExpenseId clock) inc
  (setColl st key (getColl st key ++ [newRec]), newRec)

/-- fetchExpenses, mirroring fetchIncomes. -/
def fetchExpenses (st : Store) (r : RemoteResult) : OpRes :=
  if isOfflineMode st then
    ⟨st, false, .ok (arrV (getColl st ("expenses_" ++ userKeyPart st)))⟩
  else
    match r with
    | .ok d => ⟨st, true, .ok (arrV (normalizeCollection "expenses" d))⟩
    | .err e =>
      let st1 := interceptOnError st e
      match e with
      | .network =>
        let st2 := { st1 with backendMode := some "offline" }
        ⟨st2, true, .ok (arrV (getColl st2 ("expenses_" ++ userKeyPart st2)))⟩
      | .http s d => ⟨st1, true, .err (.http s d)⟩

/-- createExpense, mirroring createIncome. -/
def createExpense (st : Store) (r : RemoteResult) (inc : IncomeInput)
    (clock : Nat) : OpRes :=
  if incomeInvalid inc then ⟨st, false, .err (.validation (missingFields inc))⟩
  else if isOfflineMode st then
    let (st', v) := localCreateExpense st inc clock
    ⟨st', false, .ok v⟩
  else
    match r with
    | .ok d => ⟨st, true, .ok (mergeName d inc.name)⟩
    | .err e =>
      let st1 := interceptOnError st e
      match e with
      | .network =>
        let st2 := { st1 with backendMode := some "offline" }
        let (st', v) := localCreateExpense st2 inc clock
        ⟨st', true, .ok v⟩
      | .http s d => ⟨st1, true, .err (.http s d)⟩

/-- updateExpense: a bare remote call, no offline check, no fallback. -/
def updateExpense (st : Store) (r : RemoteResult) : OpRes :=
  match r with
  | .ok d => ⟨st, true, .ok d⟩
  | .err e => ⟨interceptOnError st e, true, .err (errInfoOf e)⟩

/-- deleteExpense, mirroring deleteIncome. -/
def deleteExpense (st : Store) (r : RemoteResult) (id : String) : OpRes :=
  if isOfflineMode st then
    let key := "expenses_" ++ userKeyPart st
    ⟨setColl st key (localDelete id (getColl st key)), false,
      .ok (objV [("success", boolV true)])⟩
  else
    match r with
    | .ok d => ⟨st, true, .ok d⟩
    | .err e =>
      let st1 := interceptOnError st e
      match e with
      | .network =>
        let st2 := { st1 with backendMode := some "offline" }
        let key := "expenses_" ++ userKeyPart st2
        ⟨setColl st2 key (localDelete id (getColl st2 key)), true,
          .ok (objV [("success", boolV true)])⟩
      | .http s d => ⟨st1, true, .err (.http s d)⟩

/-! Category facade operations. -/

/-- Input of createCategory (Category without id); ctype models the
field named type. -/
structure CatInput where
  name : String
  ctype : String
  color : Option String

/-- The record pushed by a local category create. -/
def categoryRecord (id : String) (c : CatInput) : JsonVal :=
  objV ([("id", strV id), ("name", strV c.name), ("type", strV c.ctype)] ++
    optField "color" c.color)

/-- The seven default categories written on the first offline fetch when
the stored collection is empty. -/
def defaultCategories : List JsonVal :=
  [objV [("id", strV "1"), ("name", strV "Salary"), ("type", strV "income"), ("color", strV "#10b981")],
   objV [("id", strV "2"), ("name", strV "Freelance"), ("type", strV "income"), ("color", strV "#34d399")],
   objV [("id", strV "3"), ("name", strV "Investment"), ("type", strV "income"), ("color", strV "#6ee7b7")],
   objV [("id", strV "4"), ("name", strV "Food"), ("type", strV "expense"), ("color", strV "#ef4444")],
   objV [("id", strV "5"), ("name", strV "Transport"), ("type", strV "expense"), ("color", strV "#f87171")],
   objV [("id", strV "6"), ("name", strV "Entertainment"), ("type", strV "expense"), ("color", strV "#fca5a5")],
   objV [("id", strV "7"), ("name", strV "Bills"), ("type", strV "expense"), ("color", strV "#dc2626")]]

/-- fetchCategories: offline mode seeds and returns the defaults when the
stored collection is empty, else returns the stored list; online
normalizes the remote body, retrying offline (which lands in the offline
branch) on a network error. -/
def fetchCategories (st : Store) (r : RemoteResult) : OpRes :=
  if isOfflineMode st then
    let key := "categories_" ++ userKeyPart st
    let cats := getColl st key
    if cats.length == 0 then
      ⟨setColl st key defaultCategories, false, .ok (arrV defaultCategories)⟩
    else ⟨st, false, .ok (arrV cats)⟩
  else
    match r with
    | .ok d => ⟨st, true, .ok (arrV (normalizeCollection "categories" d))⟩
    | .err e =>
      let st1 := interceptOnError st e
      match e with
      | .network =>
        let st2 := { st1 with backendMode := some "offline" }
        let key := "categories_" ++ userKeyPart st2
        let cats := getColl st2 key
        if cats.length == 0 then
          ⟨setColl st2 key defaultCategories, true, .ok (arrV defaultCategories)⟩
        else ⟨st2, true, .ok (arrV cats)⟩
      | .http s d => ⟨st1, true, .err (.http s d)⟩

/-- createCategory: offline mode pushes locally; online posts remotely,
retrying locally (after flipping mode) on a network error. -/
def createCategory (st : Store) (r : RemoteResult) (c : CatInput)
    (clock : Nat) : OpRes :=
  if isOfflineMode st then
    let key := "categories_" ++ userKeyPart st
    let newRec := categoryRecord (localCategoryId clock) c
    ⟨setColl st key (getColl st key ++ [newRec]), false, .ok newRec⟩
  else
    match r with
    | .ok d => ⟨st, true, .ok d⟩
    | .err e =>
      let st1 := interceptOnError st e
      match e with
      | .network =>
        let st2 := { st1 with backendMode := some "offline" }
        let key := "categories_" ++ userKeyPart st2
        let newRec := categoryRecord (localCategoryId clock) c
        ⟨setColl st2 key (getColl st2 key ++ [newRec]), true, .ok newRec⟩
      | .http s d => ⟨st1, true, .err (.http s d)⟩

/-- updateCategory: a bare remote call, no offline check, no fallback. -/
def updateCategory (st : Store) (r : RemoteResult) : OpRes :=
  match r with
  | .ok d => ⟨st, true, .ok d⟩
  | .err e => ⟨interceptOnError st e, true, .err (errInfoOf e)⟩

/-- deleteCategory, mirroring deleteIncome on the categories key. -/
def deleteCategory (st : Store) (r : RemoteResult) (id : String) : OpRes :=
  if isOfflineMode st then
    let key := "categories_" ++ userKeyPart st
    ⟨setColl st key (localDelete id (getColl st key)), false,
      .ok (objV [("success", boolV true)])⟩
  else
    match r with
    | .ok d => ⟨st, true, .ok d⟩
    | .err e =>
      let st1 := interceptOnError st e
      match e with
      | .network =>
        let st2 := { st1 with backendMode := some "offline" }
        let key := "categories_" ++ userKeyPart st2
        ⟨setColl st2 key (localDelete id (getColl st2 key)), true,
          .ok (objV [("success", boolV true)])⟩
      | .http s d => ⟨st1, true, .err (.http s d)⟩

/-- filterTransactions: always a remote call (no offline check); the
response is normalized under the transactions kind; errors are logged and
rethrown with no fallback. -/
def filterTransactions (st : Store) (r : RemoteResult) : OpRes :=
  match r with
  | .ok d => ⟨st, true, .ok (arrV (normalizeCollection "transactions" d))⟩
  | .err e => ⟨interceptOnError st e, true, .err (errInfoOf e)⟩

/-! Login flow, from Login.tsx handleSubmit. -/

/-- What the login handler reports: a successful onLogin callback with
token and user, or an error message shown to the user. -/
inductive LoginOutcome where
  | loggedIn : JsonVal → JsonVal → LoginOutcome
  | showError : String → LoginOutcome

/-- The minimal user object built when the response carries a token and
no user: the submitted email plus the email's local part as username. -/
def synthUser (email : String) : JsonVal :=
  objV [("email", strV email),
        ("username", strV (email.takeWhile (fun c => c ≠ '@')))]

/-- String strict equality of a record field with a string. -/
def fieldIsStr (u : JsonVal) (k : String) (s : String) : Bool :=
  match dget u k with
  | some (strV t) => t == s
  | _ => false

/-- The offline credential lookup: first stored user whose email and
password strictly equal the submitted ones. -/
def findOfflineUser (users : List JsonVal) (email pw : String) : Option JsonVal :=
  users.find? (fun u => fieldIsStr u "email" email && fieldIsStr u "password" pw)

/-- Drop one field of an object (spreading with the field set to
undefined followed by JSON.stringify). -/
def removeField (u : JsonVal) (k : String) : JsonVal :=
  match u with
  | objV fs => objV (fs.filter (fun p => p.1 != k))
  | _ => u

/-- The offline-authentication fallback branch of the login catch: on a
credential match it sets an offline token, stores the user without its
password, flips backendMode to offline and reports success; otherwise it
shows an error and leaves the store untouched. -/
def offlineLoginFallback (st : Store) (email pw : String) (clock : Nat) :
    Store × LoginOutcome :=
  match findOfflineUser st.usersLS email pw with
  | some u =>
    let tok := strV ("offline_" ++ natStr clock)
    let usr := removeField u "password"
    ({ st with token := some tok, currentUser := some usr,
               backendMode := some "offline" },
     .loggedIn tok usr)
  | none =>
    (st, .showError "Invalid email or password. (Offline Mode - Create an account first)")

/-- The error message shown when the login endpoint answers with an HTTP
error: first truthy of message, error, msg in the response body, else a
generic message. -/
def loginHttpErrMsg (d : JsonVal) : String :=
  if tru (dget d "message") then jsToStr ((dget d "message").getD nullV)
  else if tru (dget d "error") then jsToStr ((dget d "error").getD nullV)
  else if tru (dget d "msg") then jsToStr ((dget d "msg").getD nullV)
  else "Invalid email or password"

/-- Login handleSubmit: empty-field guard; then the remote login call.
A 2xx body goes through authExtract; a missing token raises the internal
invalid-response error, which carries no response field and therefore
lands in the offline-credentials fallback, exactly like a network error.
An HTTP error response surfaces its message.  On success the token, the
user and the online flag are stored; this is the only writer of the
token besides the register flow. -/
def loginSubmit (st : Store) (resp : RemoteResult) (email pw : String)
    (clock : Nat) : Store × LoginOutcome :=
  if email == "" || pw == "" then (st, .showError "Please fill in all fields")
  else
    match resp with
    | .ok d =>
      match authExtract d with
      | (some t, uOpt) =>
        let usr := uOpt.getD (synthUser email)
        ({ st with token := some t, currentUser := some usr,
                   backendMode := some "online" },
         .loggedIn t usr)
      | (none, _) => offlineLoginFallback st email pw clock
    | .err .network =>
      offlineLoginFallback (interceptOnError st .network) email pw clock
    | .err (.http s d) =>
      (interceptOnError st (.http s d), .showError (loginHttpErrMsg d))

/-! Duplicate-category guard, from CategoryPage.tsx handleSubmit. -/

/-- A category as the page sees it; ctype models the field named type. -/
structure CatView where
  name : String
  ctype : String

/-- The duplicate error message of the category page. -/
def dupCategoryMsg : String := "A category with this name already exists for this type"

/-- Whitespace test used by the trim model. -/
def isWsp (c : Char) : Bool :=
  c == ' ' || c == '\t' || c == '\n' || c == '\r'

/-- Kernel-computable model of the JS string trim applied to the name
before the empty-name guard. -/
def jsTrim (s : String) : String :=
  String.mk (((s.data.dropWhile isWsp).reverse.dropWhile isWsp).reverse)

/-- CategoryPage handleSubmit up to the addCategory call: empty-name
guard, then the case-insensitive duplicate guard over the current
category list; the result is the error shown (if any) and the payload
passed to addCategory (if reached). -/
def categoryPageSubmit (cats : List CatView) (name : String)
    (ctype : String) : Option String × Option CatInput :=
  if jsTrim name == "" then (some "Please enter a category name", none)
  else if cats.any (fun c => c.name.toLower == name.toLower && c.ctype == ctype) then
    (some dupCategoryMsg, none)
  else (none, some ⟨name, ctype, none⟩)

/-! Concrete stores and inputs used by counterexamples and witnesses. -/

/-- A valid income input. -/
def incEx : IncomeInput := ⟨some "Salary", 1, 5000, "2025-01-01", none⟩

/-- A second valid income input, distinct from the first. -/
def incEx2 : IncomeInput := ⟨some "Bonus", 1, 700, "2025-01-02", none⟩

/-- A store in online mode with an authenticated user u1. -/
def stOnlineEx : Store :=
  ⟨some "online", some (strV "tok"), some (objV [("id", strV "u1")]), [], []⟩

/-- A store in offline mode with user u1 and empty collections. -/
def stOfflineEx : Store :=
  ⟨some "offline", some (strV "offline_1"), some (objV [("id", strV "u1")]), [], []⟩

/-- A fresh store whose offline credential list holds one user. -/
def stUsersEx : Store :=
  ⟨none, none, none,
   [objV [("id", strV "u1"), ("email", strV "a@b.c"), ("password", strV "p")]], []⟩

/-- A fresh store with no offline credentials. -/
def stEmptyEx : Store := ⟨none, none, none, [], []⟩

/-- The shape-4 collection body on which the implemented normalizer and
the specified one disagree. -/
def shape4Ex : JsonVal :=
  objV [("success", boolV true), ("data", objV [("incomes", arrV [strV "x"])])]

/-! Helper lemmas: decimal rendering is injective. -/

theorem natDigitsAux_congr : ∀ (f f' n : Nat), n < f → n < f' →
    natDigitsAux f n = natDigitsAux f' n := by
  intro f
  induction f with
  | zero => intro f' n h _; omega
  | succ f ih =>
    intro f' n h h'
    match f' with
    | 0 => omega
    | f'' + 1 =>
      simp only [natDigitsAux]
      by_cases h10 : n < 10
      · simp [h10]
      · simp only [h10, if_false]
        have hlt : n / 10 < n := Nat.div_lt_self (by omega) (by omega)
        rw [ih f'' (n / 10) (by omega) (by omega)]

theorem natDigits_eq (n : Nat) :
    natDigits n = if n < 10 then [n] else natDigits (n / 10) ++ [n % 10] := by
  show natDigitsAux (n + 1) n = _
  by_cases h10 : n < 10
  · simp [natDigitsAux, h10]
  · simp only [natDigitsAux, h10, if_false]
    have hlt : n / 10 < n := Nat.div_lt_self (by omega) (by omega)
    rw [natDigitsAux_congr n (n / 10 + 1) (n / 10) (by omega) (by omega)]
    rfl

theorem natDigits_ne_nil (n : Nat) : natDigits n ≠ [] := by
  rw [natDigits_eq]
  by_cases h10 : n < 10 <;> simp [h10]

theorem natDigits_lt10 (n : Nat) : ∀ x ∈ natDigits n, x < 10 := by
  induction n using Nat.strong_induction_on with
  | _ n ih =>
    rw [natDigits_eq]
    by_cases h10 : n < 10
    · simp [h10]
    · simp only [h10, if_false]
      intro x hx
      rcases List.mem_append.mp hx with hx | hx
      · exact ih (n / 10) (Nat.div_lt_self (by omega) (by omega)) x hx
      · simp at hx; omega

theorem natDigits_inj : ∀ (a b : Nat), natDigits a = natDigits b → a = b := by
  intro a
  induction a using Nat.strong_induction_on with
  | _ a ih =>
    intro b h
    rw [natDigits_eq a, natDigits_eq b] at h
    by_cases ha : a < 10 <;> by_cases hb : b < 10
    · simp [ha, hb] at h; exact h
    · simp only [ha, hb, if_true, if_false] at h
      have := congrArg List.length h
      simp at this
      exact absurd this (natDigits_ne_nil (b / 10))
    · simp only [ha, hb, if_true, if_false] at h
      have := congrArg List.length h
      simp at this
      exact absurd this (natDigits_ne_nil (a / 10))
    · simp only [ha, hb, if_false] at h
      have hrev := congrArg List.reverse h
      simp only [List.reverse_append, List.reverse_cons, List.reverse_nil,
        List.nil_append, List.singleton_append, List.cons.injEq] at hrev
      have hdiv : a / 10 = b / 10 := by
        have := List.reverse_injective hrev.2
        exact ih (a / 10) (Nat.div_lt_self (by omega) (by omega)) (b / 10) this
      omega

theorem digitCh_inj (d1 d2 : Nat) (h1 : d1 < 10) (h2 : d2 < 10)
    (h : digitCh d1 = digitCh d2) : d1 = d2 := by
  interval_cases d1 <;> interval_cases d2 <;> revert h <;> decide

theorem map_digitCh_inj : ∀ (xs ys : List Nat), (∀ x ∈ xs, x < 10) →
    (∀ y ∈ ys, y < 10) → xs.map digitCh = ys.map digitCh → xs = ys := by
  intro xs
  induction xs with
  | nil => intro ys _ _ h; cases ys <;> simp_all
  | cons x xs ihx =>
    intro ys hxs hys h
    cases ys with
    | nil => simp at h
    | cons y ys =>
      simp only [List.map_cons, List.cons.injEq] at h
      have hx : x = y := digitCh_inj x y (hxs x (by simp)) (hys y (by simp)) h.1
      have ht : xs = ys :=
        ihx ys (fun a ha => hxs a (by simp [ha])) (fun a ha => hys a (by simp [ha])) h.2
      simp [hx, ht]

theorem natStr_inj (a b : Nat) (h : natStr a = natStr b) : a = b := by
  apply natDigits_inj
  apply map_digitCh_inj _ _ (natDigits_lt10 a) (natDigits_lt10 b)
  have : ((natDigits a).map digitCh).asString = ((natDigits b).map digitCh).asString := h
  exact congrArg String.data this

theorem prefixed_natStr_inj (p : String) (a b : Nat)
    (h : p ++ natStr a = p ++ natStr b) : a = b := by
  apply natStr_inj
  have hd := congrArg String.data h
  simp only [String.data_append] at hd
  exact congrArg String.mk (List.append_cancel_left hd)

theorem localIncomeId_inj (a b : Nat) (h : localIncomeId a = localIncomeId b) :
    a = b := prefixed_natStr_inj "inc_" a b h

theorem localExpenseId_inj (a b : Nat) (h : localExpenseId a = localExpenseId b) :
    a = b := prefixed_natStr_inj "exp_" a b h

theorem localIncomeId_ne_localExpenseId (a b : Nat) :
    localIncomeId a ≠ localExpenseId b := by
  intro h
  have hd := congrArg String.data h
  simp only [localIncomeId, localExpenseId, String.data_append] at hd
  simp at hd

/-! Helper lemmas about the store and the auth extraction. -/

theorem getColl_setColl_same (st : Store) (k : String) (xs : List JsonVal) :
    getColl (setColl st k xs) k = xs := by
  simp [getColl, setColl, List.lookup]

theorem getColl_setColl_ne (st : Store) (k k' : String) (xs : List JsonVal)
    (h : k' ≠ k) : getColl (setColl st k xs) k' = getColl st k' := by
  have hb : (k' == k) = false := by simp [h]
  simp [getColl, setColl, List.lookup, hb]

theorem offline_prefix_ne_empty (s : String) : "offline_" ++ s ≠ "" := by
  intro h
  have hd := congrArg String.data h
  simp [String.data_append] at hd

theorem tru_iff (o : Option JsonVal) :
    tru o = true ↔ ∃ v, o = some v ∧ truthy v = true := by
  cases o <;> simp [tru]

theorem authExtract_cases (d : JsonVal) :
    authExtract d = (none, none) ∨
    ∃ t u, authExtract d = (some t, some u) ∧ truthy t = true ∧ truthy u = true := by
  unfold authExtract
  split
  · rename_i hc
    simp only [Bool.and_eq_true] at hc
    obtain ⟨h1, h2⟩ := hc
    obtain ⟨t, ht, htt⟩ := (tru_iff _).mp h1
    obtain ⟨u, hu, hut⟩ := (tru_iff _).mp h2
    exact Or.inr ⟨t, u, by rw [ht, hu], htt, hut⟩
  · split
    · rename_i hc
      simp only [Bool.and_eq_true] at hc
      obtain ⟨⟨_, h1⟩, h2⟩ := hc
      obtain ⟨t, ht, htt⟩ := (tru_iff _).mp h1
      obtain ⟨u, hu, hut⟩ := (tru_iff _).mp h2
      exact Or.inr ⟨t, u, by rw [ht, hu], htt, hut⟩
    · split
      · rename_i hc
        simp only [Bool.and_eq_true] at hc
        obtain ⟨h1, h2⟩ := hc
        obtain ⟨t, ht, htt⟩ := (tru_iff _).mp h1
        obtain ⟨u, hu, hut⟩ := (tru_iff _).mp h2
        exact Or.inr ⟨t, u, by rw [ht, hu], htt, hut⟩
      · split
        · rename_i hc
          simp only [Bool.and_eq_true] at hc
          obtain ⟨h1, h2⟩ := hc
          obtain ⟨t, ht, htt⟩ := (tru_iff _).mp h1
          obtain ⟨u, hu, hut⟩ := (tru_iff _).mp h2
          exact Or.inr ⟨t, u, by rw [ht, hu], htt, hut⟩
        · exact Or.inl rfl

theorem authExtract_fst_truthy (d t : JsonVal)
    (h : (authExtract d).1 = some t) : truthy t = true := by
  rcases authExtract_cases d with hc | ⟨t', u', hc, htt, _⟩ <;> rw [hc] at h
  · simp at h
  · simp at h; rwa [← h]

theorem authExtract_token_implies_user (d t : JsonVal)
    (h : (authExtract d).1 = some t) : (authExtract d).2 ≠ none := by
  rcases authExtract_cases d with hc | ⟨t', u', hc, _, _⟩ <;> rw [hc] at h ⊢ <;> simp_all

/-! Claim C1. -/

/-- Claim C1, counterexample: a 2xx login response matching none of the
four recognized shapes (here an empty object) does not leave the Session
unmodified when an offline credential record matches the submitted
email/password: the handler falls back to offline authentication, reports
success, and writes an offline token, user, and offline mode into the
Session. -/
theorem c1_counterexample :
    (loginSubmit stUsersEx (.ok (objV [])) "a@b.c" "p" 7).2 =
      .loggedIn (strV ("offline_" ++ natStr 7))
        (objV [("id", strV "u1"), ("email", strV "a@b.c")]) ∧
    (loginSubmit stUsersEx (.ok (objV [])) "a@b.c" "p" 7).1.token =
      some (strV ("offline_" ++ natStr 7)) ∧
    (loginSubmit stUsersEx (.ok (objV [])) "a@b.c" "p" 7).1.backendMode =
      some "offline" ∧
    stUsersEx.token = none :=
  ⟨rfl, rfl, rfl, rfl⟩

/-- Claim C1, amended: login success always yields a truthy (hence
non-null) token; and when a 2xx response matches none of the four
recognized shapes, the handler raises the internal invalid-response error
and falls into the offline-credentials fallback, so the login fails with
an error message and the Session stays unmodified only when no stored
offline credential matches; with a matching credential it succeeds with an
offline token instead. -/
theorem c1_amended (st : Store) (resp : RemoteResult) (email pw : String)
    (clock : Nat) (hE : email ≠ "") (hP : pw ≠ "") :
    (∀ st' t u, loginSubmit st resp email pw clock = (st', .loggedIn t u) →
      truthy t = true) ∧
    (∀ d, resp = .ok d → (authExtract d).1 = none →
      findOfflineUser st.usersLS email pw = none →
      loginSubmit st resp email pw clock =
        (st, .showError "Invalid email or password. (Offline Mode - Create an account first)")) := by
  have hguard : (email == "" || pw == "") = false := by simp [hE, hP]
  constructor
  · intro st' t u h
    unfold loginSubmit at h
    rw [hguard] at h
    simp only [Bool.false_eq_true, if_false] at h
    cases resp with
    | ok d =>
      rcases authExtract_cases d with hc | ⟨t0, u0, hc, htt, _⟩ <;>
        simp only [hc] at h
      · unfold offlineLoginFallback at h
        cases hF : findOfflineUser st.usersLS email pw <;> simp only [hF] at h
        · simp at h
        · simp only [Prod.mk.injEq, LoginOutcome.loggedIn.injEq] at h
          obtain ⟨-, ht, -⟩ := h
          subst ht
          simp [truthy, offline_prefix_ne_empty]
      · simp only [Prod.mk.injEq, LoginOutcome.loggedIn.injEq] at h
        obtain ⟨-, ht, -⟩ := h
        subst ht
        exact htt
    | err e =>
      cases e with
      | network =>
        unfold offlineLoginFallback at h
        cases hF : findOfflineUser (interceptOnError st .network).usersLS email pw <;>
          simp only [hF] at h
        · simp at h
        · simp only [Prod.mk.injEq, LoginOutcome.loggedIn.injEq] at h
          obtain ⟨-, ht, -⟩ := h
          subst ht
          simp [truthy, offline_prefix_ne_empty]
      | http s d => simp at h
  · intro d hresp hA hF
    subst hresp
    unfold loginSubmit
    rw [hguard]
    simp only [Bool.false_eq_true, if_false]
    rcases authExtract_cases d with hc | ⟨t0, u0, hc, _, _⟩
    · simp only [hc]
      unfold offlineLoginFallback
      rw [hF]
    · rw [hc] at hA
      simp at hA

/-- Claim C1, witness: the amended theorem applied to an empty-object
response with no stored offline credentials shows the error outcome with
the store untouched. -/
theorem c1_witness :
    loginSubmit stEmptyEx (.ok (objV [])) "a@b.c" "p" 3 =
      (stEmptyEx, .showError "Invalid email or password. (Offline Mode - Create an account first)") :=
  (c1_amended stEmptyEx (.ok (objV [])) "a@b.c" "p" 3 (by decide) (by decide)).2
    (objV []) rfl rfl rfl

/-! Claim C2. -/

/-- Helper: the interceptor leaves the store unchanged on a non-401 HTTP
error. -/
theorem interceptOnError_ne401 (st : Store) (s : Nat) (d : JsonVal)
    (h : s ≠ 401) : interceptOnError st (.http s d) = st := by
  simp [interceptOnError, h]

/-- Helper: the interceptor tears the session down on a 401. -/
theorem interceptOnError_401 (st : Store) (d : JsonVal) :
    interceptOnError st (.http 401 d) =
      { st with token := none, currentUser := none, backendMode := some "offline" } := by
  simp [interceptOnError]

/-- Claim C2, counterexample: an Unauthorized (HTTP 401) failure of a
create call does flip the mode from online to offline, via the response
interceptor's session teardown, contradicting that the mode is never
flipped on an Unauthorized classification. -/
theorem c2_counterexample :
    (createIncome stOnlineEx (.err (.http 401 nullV)) incEx 5).st.backendMode =
      some "offline" ∧
    stOnlineEx.backendMode = some "online" ∧
    (createIncome stOnlineEx (.err (.http 401 nullV)) incEx 5).out =
      .err (.http 401 nullV) :=
  ⟨rfl, rfl, rfl⟩

/-- Claim C2, amended: on a Rejected (non-401 HTTP) failure no operation
flips the mode, stores anything locally, or changes the store at all - the
failure is surfaced to the caller; on an Unauthorized (401) failure the
error is likewise surfaced and nothing is stored locally, but the
interceptor's session teardown clears the token and user and sets the
mode to offline. -/
theorem c2_amended (st : Store) (status : Nat) (d : JsonVal)
    (inc : IncomeInput) (c : CatInput) (clock : Nat) (id : String)
    (hOn : isOfflineMode st = false) (hV : incomeInvalid inc = false) :
    (status ≠ 401 →
      createIncome st (.err (.http status d)) inc clock =
        ⟨st, true, .err (.http status d)⟩ ∧
      deleteIncome st (.err (.http status d)) id =
        ⟨st, true, .err (.http status d)⟩ ∧
      fetchIncomes st (.err (.http status d)) =
        ⟨st, true, .err (.http status d)⟩ ∧
      createCategory st (.err (.http status d)) c clock =
        ⟨st, true, .err (.http status d)⟩) ∧
    createIncome st (.err (.http 401 d)) inc clock =
      ⟨{ st with token := none, currentUser := none,
                 backendMode := some "offline" },
        true, .err (.http 401 d)⟩ := by
  constructor
  · intro hs
    refine ⟨?_, ?_, ?_, ?_⟩ <;>
      simp [createIncome, deleteIncome, fetchIncomes, createCategory, hOn, hV,
        interceptOnError_ne401, hs]
  · simp [createIncome, hOn, hV, interceptOnError]

/-- Claim C2, witness: the amended theorem applied to a 400 failure of a
valid create in an online store. -/
theorem c2_witness :
    createIncome stOnlineEx (.err (.http 400 nullV)) incEx 5 =
      ⟨stOnlineEx, true, .err (.http 400 nullV)⟩ :=
  ((c2_amended stOnlineEx 400 nullV incEx ⟨"Food", "expense", none⟩ 5 "x"
    rfl rfl).1 (by decide)).1

/-! Claim C3. -/

/-- Helper: the user key does not depend on the backendMode flag. -/
theorem userKeyPart_mode (st : Store) (m : Option String) :
    userKeyPart { st with backendMode := m } = userKeyPart st := rfl

/-- Helper: collection reads do not depend on the backendMode flag. -/
theorem getColl_mode (st : Store) (m : Option String) (k : String) :
    getColl { st with backendMode := m } k = getColl st k := rfl

/-- Helper: in offline mode, every mode-aware facade operation (fetch,
create, delete for incomes, expenses, categories) answers from the local
store without invoking the remote client. -/
theorem offline_no_remote (st : Store) (r : RemoteResult) (inc : IncomeInput)
    (c : CatInput) (clock : Nat) (id : String)
    (hOff : isOfflineMode st = true) :
    (fetchIncomes st r).remote = false ∧
    (createIncome st r inc clock).remote = false ∧
    (deleteIncome st r id).remote = false ∧
    (fetchExpenses st r).remote = false ∧
    (createExpense st r inc clock).remote = false ∧
    (deleteExpense st r id).remote = false ∧
    (fetchCategories st r).remote = false ∧
    (createCategory st r c clock).remote = false ∧
    (deleteCategory st r id).remote = false := by
  refine ⟨?_, ?_, ?_, ?_, ?_, ?_, ?_, ?_, ?_⟩
  · simp [fetchIncomes, hOff]
  · cases hI : incomeInvalid inc <;> simp [createIncome, hOff, hI]
  · simp [deleteIncome, hOff]
  · simp [fetchExpenses, hOff]
  · cases hI : incomeInvalid inc <;> simp [createExpense, hOff, hI]
  · simp [deleteExpense, hOff]
  · simp only [fetchCategories, hOff, if_true]
    split <;> rfl
  · simp [createCategory, hOff]
  · simp [deleteCategory, hOff]

/-- Claim C3, amended: a network failure on a mode-aware call (here the
cited createIncome and deleteIncome) flips the mode to offline and retries
that same operation against the local store, so the caller sees success;
and once the mode is offline, every subsequent fetch, create or delete of
incomes, expenses and categories routes to the local store without
invoking the remote client.  The update operations and the filter
operation are not mode-aware and still invoke the remote client (see the
counterexample), so the routing guarantee is restricted to the mode-aware
family. -/
theorem c3_amended (st : Store) (inc : IncomeInput) (clock : Nat)
    (id : String) (hOn : isOfflineMode st = false)
    (hV : incomeInvalid inc = false) :
    createIncome st (.err .network) inc clock =
      ⟨setColl { st with backendMode := some "offline" }
          ("incomes_" ++ userKeyPart st)
          (getColl st ("incomes_" ++ userKeyPart st) ++
            [incomeRecord (localIncomeId clock) inc]),
        true, .ok (incomeRecord (localIncomeId clock) inc)⟩ ∧
    deleteIncome st (.err .network) id =
      ⟨setColl { st with backendMode := some "offline" }
          ("incomes_" ++ userKeyPart st)
          (localDelete id (getColl st ("incomes_" ++ userKeyPart st))),
        true, .ok (objV [("success", boolV true)])⟩ ∧
    isOfflineMode (createIncome st (.err .network) inc clock).st = true ∧
    (∀ (st2 : Store) (r : RemoteResult) (inc2 : IncomeInput) (c : CatInput)
      (clock2 : Nat) (id2 : String), isOfflineMode st2 = true →
      (fetchIncomes st2 r).remote = false ∧
      (createIncome st2 r inc2 clock2).remote = false ∧
      (deleteIncome st2 r id2).remote = false ∧
      (fetchExpenses st2 r).remote = false ∧
      (createExpense st2 r inc2 clock2).remote = false ∧
      (deleteExpense st2 r id2).remote = false ∧
      (fetchCategories st2 r).remote = false ∧
      (createCategory st2 r c clock2).remote = false ∧
      (deleteCategory st2 r id2).remote = false) := by
  refine ⟨?_, ?_, ?_, ?_⟩
  · simp [createIncome, hOn, hV, interceptOnError, localCreateIncome,
      userKeyPart_mode, getColl_mode]
  · simp [deleteIncome, hOn, interceptOnError, userKeyPart_mode, getColl_mode]
  · have hOn' : ¬ st.backendMode = some "offline" := by
      simpa [isOfflineMode] using hOn
    simp [createIncome, hV, interceptOnError, localCreateIncome, setColl,
      isOfflineMode, hOn']
  · intro st2 r inc2 c clock2 id2 hOff
    exact offline_no_remote st2 r inc2 c clock2 id2 hOff

/-- Claim C3, counterexample: after a network failure on createIncome has
flipped the mode to offline, a subsequent filterTransactions call in the
same session still invokes the remote client, contradicting that every
subsequent call routes directly to the local store. -/
theorem c3_counterexample :
    (createIncome stOnlineEx (.err .network) incEx 5).st.backendMode =
      some "offline" ∧
    (filterTransactions (createIncome stOnlineEx (.err .network) incEx 5).st
      (.ok (arrV []))).remote = true :=
  ⟨rfl, rfl⟩

/-- Claim C3, witness: the amended theorem applied to a concrete online
store shows the flip to offline and the local routing of a subsequent
fetch. -/
theorem c3_witness :
    isOfflineMode (createIncome stOnlineEx (.err .network) incEx 5).st = true ∧
    (fetchIncomes (createIncome stOnlineEx (.err .network) incEx 5).st
      (.ok nullV)).remote = false := by
  have h := c3_amended stOnlineEx incEx 5 "x" rfl rfl
  exact ⟨h.2.2.1,
    (h.2.2.2 _ (.ok nullV) incEx ⟨"a", "b", none⟩ 0 "y" h.2.2.1).1⟩

/-! Claim C4. -/

/-- Claim C4, amended: in local (offline) mode the fetch, create and
delete operations for incomes, expenses and categories route directly to
the local store and never invoke the remote client; the three update
operations and the filter operation, however, are not mode-aware and
invoke the remote client regardless of the current mode. -/
theorem c4_amended (st : Store) (r : RemoteResult) (inc : IncomeInput)
    (c : CatInput) (clock : Nat) (id : String)
    (hOff : isOfflineMode st = true) :
    ((fetchIncomes st r).remote = false ∧
     (createIncome st r inc clock).remote = false ∧
     (deleteIncome st r id).remote = false ∧
     (fetchExpenses st r).remote = false ∧
     (createExpense st r inc clock).remote = false ∧
     (deleteExpense st r id).remote = false ∧
     (fetchCategories st r).remote = false ∧
     (createCategory st r c clock).remote = false ∧
     (deleteCategory st r id).remote = false) ∧
    ((updateIncome st r).remote = true ∧
     (updateExpense st r).remote = true ∧
     (updateCategory st r).remote = true ∧
     (filterTransactions st r).remote = true) := by
  refine ⟨offline_no_remote st r inc c clock id hOff, ?_, ?_, ?_, ?_⟩ <;>
    cases r <;> rfl

/-- Claim C4, counterexample: with the mode local (offline), an income
update still invokes the remote client, contradicting that the remote
client is never invoked in local mode. -/
theorem c4_counterexample :
    isOfflineMode stOfflineEx = true ∧
    (updateIncome stOfflineEx (.ok nullV)).remote = true :=
  ⟨rfl, rfl⟩

/-- Claim C4, witness: the amended theorem applied to a concrete offline
store. -/
theorem c4_witness :
    (fetchIncomes stOfflineEx (.ok nullV)).remote = false ∧
    (filterTransactions stOfflineEx (.ok nullV)).remote = true := by
  have h := c4_amended stOfflineEx (.ok nullV) incEx ⟨"a", "b", none⟩ 0 "x" rfl
  exact ⟨h.1.1, h.2.2.2.2⟩

/-! Claim C5. -/

/-- Claim C5, counterexample: on the fourth recognized shape (success flag
with the array under data.KIND) the implemented normalizer returns the
empty collection while the specified priority order returns the array, so
the implementation does not return the first structurally valid match of
the four shapes. -/
theorem c5_counterexample :
    normalizeCollection "incomes" shape4Ex = [] ∧
    specNormalizeCollection "incomes" shape4Ex = [strV "x"] ∧
    normalizeCollection "incomes" shape4Ex ≠
      specNormalizeCollection "incomes" shape4Ex := by
  refine ⟨rfl, rfl, fun h => ?_⟩
  have h2 : ([] : List JsonVal) = [strV "x"] := h
  exact List.noConfusion h2

/-- Claim C5, amended: the collection normalizer selects the first truthy
candidate among the resource-kind field, the data field and the bare body,
and returns it exactly when it is an array, the empty collection
otherwise; so a valid array under the kind field always wins, an array
under data wins when the kind field is falsy, a bare array is returned
when both fields are falsy, anything else yields the empty collection, and
in particular the success-wrapped shape with the array under data.KIND
yields the empty collection. -/
theorem c5_amended (kind : String) (d : JsonVal) :
    (∀ xs, dget d kind = some (arrV xs) → normalizeCollection kind d = xs) ∧
    (tru (dget d kind) = false → ∀ xs, dget d "data" = some (arrV xs) →
      normalizeCollection kind d = xs) ∧
    (tru (dget d kind) = false → tru (dget d "data") = false →
      ∀ xs, d = arrV xs → normalizeCollection kind d = xs) ∧
    (tru (dget d kind) = false → tru (dget d "data") = false →
      (∀ xs, d ≠ arrV xs) → normalizeCollection kind d = []) ∧
    (∀ fs, dget d kind = none → dget d "data" = some (objV fs) →
      normalizeCollection kind d = []) := by
  refine ⟨?_, ?_, ?_, ?_, ?_⟩
  · intro xs h
    simp only [normalizeCollection]
    rw [h]
    simp [tru, truthy]
  · intro hk xs h
    simp only [normalizeCollection]
    rw [hk, h]
    simp [tru, truthy]
  · intro hk hd xs h
    subst h
    simp only [normalizeCollection]
    rw [hk, hd]
    simp
  · intro hk hd hne
    simp only [normalizeCollection]
    rw [hk, hd]
    cases d <;> first
      | rfl
      | exact absurd rfl (hne _)
  · intro fs hk hd
    simp only [normalizeCollection]
    rw [hk, hd]
    simp [tru, truthy]

/-- Claim C5, witness: the amended theorem applied to a body with the
array under the kind field, and to a body with an object under data. -/
theorem c5_witness :
    normalizeCollection "incomes" (objV [("incomes", arrV [numV 1])]) =
      [numV 1] ∧
    normalizeCollection "incomes"
      (objV [("data", objV [("incomes", arrV [numV 1])])]) = [] := by
  constructor
  · exact (c5_amended "incomes" (objV [("incomes", arrV [numV 1])])).1
      [numV 1] rfl
  · exact (c5_amended "incomes"
      (objV [("data", objV [("incomes", arrV [numV 1])])])).2.2.2.2
      [("incomes", arrV [numV 1])] rfl rfl

/-! Claim C6. -/

/-- Claim C6: a login response carrying a token but no user object is a
counterexample to the claimed user-synthesis behavior: every recognized
shape requires a user, so the extraction yields no token at all (the
synthesis branch is unreachable), the response is treated as an invalid
server response, and the handler falls into the offline-credentials
fallback instead of proceeding with a synthesized user (general
unreachability is authExtract_token_implies_user). -/
theorem c6_token_without_user :
    authExtract (objV [("token", strV "jwt-abc")]) = (none, none) ∧
    loginSubmit stEmptyEx (.ok (objV [("token", strV "jwt-abc")])) "a@b.c" "p" 3 =
      (stEmptyEx,
        .showError "Invalid email or password. (Offline Mode - Create an account first)") :=
  ⟨rfl, rfl⟩

/-! Claim C7. -/

/-- Claim C7: when the current category list already holds a category with
the same name (even up to case) and type, the category page submission
fails with the duplicate-category error and addCategory is never invoked;
and a successful submission can only add a pair that is not yet present,
so the no-duplicate invariant on the (name, type) pairs is preserved. -/
theorem c7_duplicate_category (cats : List CatView) (name ctype : String) :
    ((∃ c ∈ cats, c.name = name ∧ c.ctype = ctype) →
      (categoryPageSubmit cats name ctype).2 = none ∧
      (jsTrim name ≠ "" →
        (categoryPageSubmit cats name ctype).1 = some dupCategoryMsg)) ∧
    (∀ p, (categoryPageSubmit cats name ctype).2 = some p →
      (cats.map fun c => (c.name, c.ctype)).Nodup →
      ((cats ++ [(⟨p.name, p.ctype⟩ : CatView)]).map
        fun c => (c.name, c.ctype)).Nodup) := by
  constructor
  · rintro ⟨c, hc, hn, ht⟩
    have hdup : cats.any
        (fun c => c.name.toLower == name.toLower && c.ctype == ctype) = true := by
      rw [List.any_eq_true]
      exact ⟨c, hc, by simp [hn, ht]⟩
    constructor
    · by_cases htr : (jsTrim name == "") = true
      · simp [categoryPageSubmit, htr]
      · simp only [Bool.not_eq_true] at htr
        simp [categoryPageSubmit, htr, hdup]
    · intro htrim
      have htr : (jsTrim name == "") = false := by simp [htrim]
      simp [categoryPageSubmit, htr, hdup]
  · intro p hp hnd
    unfold categoryPageSubmit at hp
    by_cases htr : (jsTrim name == "") = true
    · simp [htr] at hp
    · simp only [Bool.not_eq_true] at htr
      by_cases hdup : cats.any
          (fun c => c.name.toLower == name.toLower && c.ctype == ctype) = true
      · simp [htr, hdup] at hp
      · simp only [Bool.not_eq_true] at hdup
        simp only [htr, hdup, Bool.false_eq_true, if_false, Option.some.injEq] at hp
        have hpn : p.name = name := by rw [← hp]
        have hpt : p.ctype = ctype := by rw [← hp]
        rw [List.map_append, List.map_singleton, hpn, hpt]
        rw [List.nodup_append]
        refine ⟨hnd, List.nodup_singleton _, ?_⟩
        intro q hq hq1
        simp only [List.mem_singleton] at hq1
        subst hq1
        simp only [List.mem_map] at hq
        obtain ⟨c, hc, hcq⟩ := hq
        have hcn : c.name = name := congrArg Prod.fst hcq
        have hct : c.ctype = ctype := congrArg Prod.snd hcq
        have htrue : cats.any
            (fun c => c.name.toLower == name.toLower && c.ctype == ctype) = true := by
          rw [List.any_eq_true]
          exact ⟨c, hc, by simp [hcn, hct]⟩
        rw [hdup] at htrue
        exact Bool.noConfusion htrue

/-- Claim C7, witness: submitting Food/expense against a list already
holding Food/expense is blocked with the duplicate error. -/
theorem c7_witness :
    (categoryPageSubmit [⟨"Food", "expense"⟩] "Food" "expense").2 = none ∧
    (categoryPageSubmit [⟨"Food", "expense"⟩] "Food" "expense").1 =
      some dupCategoryMsg := by
  have h := (c7_duplicate_category [⟨"Food", "expense"⟩] "Food" "expense").1
    ⟨⟨"Food", "expense"⟩, by simp, rfl, rfl⟩
  exact ⟨h.1, h.2 (by decide)⟩

/-! Claim C8. -/

/-- Claim C8, counterexample: two successive local income creations within
the same Date.now() millisecond store two transactions carrying the same
id inc_5 under the same user, so the locally generated id is not unique
among the stored transactions. -/
theorem c8_counterexample :
    ((getColl (createIncome (createIncome stOfflineEx (.ok nullV) incEx 5).st
        (.ok nullV) incEx2 5).st "incomes_u1").map fun x => dget x "id") =
      [some (strV "inc_5"), some (strV "inc_5")] ∧
    ¬ ((getColl (createIncome (createIncome stOfflineEx (.ok nullV) incEx 5).st
        (.ok nullV) incEx2 5).st "incomes_u1").map fun x => dget x "id").Nodup := by
  refine ⟨rfl, fun h => ?_⟩
  have h2 : ([some (strV "inc_5"), some (strV "inc_5")] :
      List (Option JsonVal)).Nodup := h
  rcases List.nodup_cons.mp h2 with ⟨hnm, -⟩
  exact hnm (List.mem_singleton_self _)

/-- Claim C8, amended: the locally generated transaction ids are unique
provided the Date.now() values of the creations are pairwise distinct:
for any sequence of local income/expense creations with pairwise distinct
timestamps the generated ids are pairwise distinct, and an income id never
collides with an expense id because their prefixes differ; two creations
within the same millisecond, however, collide (see the counterexample). -/
theorem c8_amended :
    (∀ (events : List (Bool × Nat)),
      (events.map Prod.snd).Pairwise (· ≠ ·) →
      (events.map fun e =>
        if e.1 then localIncomeId e.2 else localExpenseId e.2).Pairwise (· ≠ ·)) ∧
    (∀ a b : Nat, localIncomeId a ≠ localExpenseId b) := by
  constructor
  · intro events h
    rw [List.pairwise_map] at h ⊢
    refine List.Pairwise.imp ?_ h
    intro e1 e2 hne
    rcases e1 with ⟨b1, t1⟩
    rcases e2 with ⟨b2, t2⟩
    simp only at hne
    cases b1 <;> cases b2
    · exact fun hEq => hne (localExpenseId_inj t1 t2 hEq)
    · exact fun hEq => localIncomeId_ne_localExpenseId t2 t1 hEq.symm
    · exact fun hEq => localIncomeId_ne_localExpenseId t1 t2 hEq
    · exact fun hEq => hne (localIncomeId_inj t1 t2 hEq)
  · exact localIncomeId_ne_localExpenseId

/-- Claim C8, witness: three creations at distinct timestamps yield
pairwise distinct ids. -/
theorem c8_witness :
    ([(true, 1), (false, 2), (true, 3)].map fun e =>
      if e.1 then localIncomeId e.2 else localExpenseId e.2).Pairwise (· ≠ ·) :=
  c8_amended.1 [(true, 1), (false, 2), (true, 3)] (by decide)

/-! Claim C9. -/

/-- Helper: the user key does not depend on the collections. -/
theorem userKeyPart_setColl (st : Store) (k : String) (xs : List JsonVal) :
    userKeyPart (setColl st k xs) = userKeyPart st := rfl

/-- Helper: writing a collection does not change the mode. -/
theorem isOfflineMode_setColl (st : Store) (k : String) (xs : List JsonVal) :
    isOfflineMode (setColl st k xs) = isOfflineMode st := rfl

/-- Helper: deleting twice filters the same records as deleting once. -/
theorem localDelete_idem (id : String) (xs : List JsonVal) :
    localDelete id (localDelete id xs) = localDelete id xs := by
  simp [localDelete, List.filter_filter]

/-- Claim C9: in local mode the income, expense and category deletes
always report success without invoking the remote client, replace the
stored collection by the filter that removes exactly the records whose id
strictly equals the target (keeping all others in order), and are
idempotent: a second delete of the same id leaves the stored collection
unchanged. -/
theorem c9_local_delete (st : Store) (r r2 : RemoteResult) (id : String)
    (hOff : isOfflineMode st = true) :
    ((deleteIncome st r id).out = .ok (objV [("success", boolV true)]) ∧
     (deleteIncome st r id).remote = false ∧
     (deleteExpense st r id).out = .ok (objV [("success", boolV true)]) ∧
     (deleteCategory st r id).out = .ok (objV [("success", boolV true)])) ∧
    (getColl (deleteIncome st r id).st ("incomes_" ++ userKeyPart st) =
      localDelete id (getColl st ("incomes_" ++ userKeyPart st)) ∧
     getColl (deleteExpense st r id).st ("expenses_" ++ userKeyPart st) =
      localDelete id (getColl st ("expenses_" ++ userKeyPart st)) ∧
     getColl (deleteCategory st r id).st ("categories_" ++ userKeyPart st) =
      localDelete id (getColl st ("categories_" ++ userKeyPart st))) ∧
    (∀ (xs : List JsonVal) (x : JsonVal),
      x ∈ localDelete id xs ↔ x ∈ xs ∧ idMatches x id = false) ∧
    getColl (deleteIncome (deleteIncome st r id).st r2 id).st
        ("incomes_" ++ userKeyPart st) =
      getColl (deleteIncome st r id).st ("incomes_" ++ userKeyPart st) := by
  refine ⟨⟨?_, ?_, ?_, ?_⟩, ⟨?_, ?_, ?_⟩, ?_, ?_⟩
  · simp [deleteIncome, hOff]
  · simp [deleteIncome, hOff]
  · simp [deleteExpense, hOff]
  · simp [deleteCategory, hOff]
  · simp [deleteIncome, hOff, getColl_setColl_same]
  · simp [deleteExpense, hOff, getColl_setColl_same]
  · simp [deleteCategory, hOff, getColl_setColl_same]
  · intro xs x
    simp [localDelete, List.mem_filter, Bool.not_eq_true']
  · have hD1 : (deleteIncome st r id).st =
        setColl st ("incomes_" ++ userKeyPart st)
          (localDelete id (getColl st ("incomes_" ++ userKeyPart st))) := by
      simp [deleteIncome, hOff]
    rw [hD1]
    have hOffS : isOfflineMode (setColl st ("incomes_" ++ userKeyPart st)
        (localDelete id (getColl st ("incomes_" ++ userKeyPart st)))) = true := by
      rw [isOfflineMode_setColl]
      exact hOff
    simp [deleteIncome, hOffS, userKeyPart_setColl, getColl_setColl_same,
      localDelete_idem]

/-- Claim C9, witness: deleting id a from a store holding records a and b
keeps exactly b and reports success; a second delete keeps the store
unchanged. -/
theorem c9_witness :
    (deleteIncome
      ⟨some "offline", none, some (objV [("id", strV "u1")]), [],
        [("incomes_u1", [objV [("id", strV "a")], objV [("id", strV "b")]])]⟩
      (.ok nullV) "a").out = .ok (objV [("success", boolV true)]) ∧
    getColl (deleteIncome
      ⟨some "offline", none, some (objV [("id", strV "u1")]), [],
        [("incomes_u1", [objV [("id", strV "a")], objV [("id", strV "b")]])]⟩
      (.ok nullV) "a").st "incomes_u1" = [objV [("id", strV "b")]] := by
  have h := c9_local_delete
    ⟨some "offline", none, some (objV [("id", strV "u1")]), [],
      [("incomes_u1", [objV [("id", strV "a")], objV [("id", strV "b")]])]⟩
    (.ok nullV) (.ok nullV) "a" rfl
  exact ⟨h.1.1, h.2.1.1⟩

/-! Claim C10. -/

/-- Claim C10: in local mode, fetching categories for a user whose stored
collection is empty writes the fixed list of exactly seven default
categories under that user's key and returns it without touching the
remote client, and a subsequent fetch for the same user returns the same
seven categories without modifying the store again. -/
theorem c10_default_categories (st : Store) (r r2 : RemoteResult)
    (hOff : isOfflineMode st = true)
    (hEmpty : getColl st ("categories_" ++ userKeyPart st) = []) :
    fetchCategories st r =
      ⟨setColl st ("categories_" ++ userKeyPart st) defaultCategories, false,
        .ok (arrV defaultCategories)⟩ ∧
    getColl (fetchCategories st r).st ("categories_" ++ userKeyPart st) =
      defaultCategories ∧
    defaultCategories.length = 7 ∧
    fetchCategories (fetchCategories st r).st r2 =
      ⟨(fetchCategories st r).st, false, .ok (arrV defaultCategories)⟩ := by
  have h1 : fetchCategories st r =
      ⟨setColl st ("categories_" ++ userKeyPart st) defaultCategories, false,
        .ok (arrV defaultCategories)⟩ := by
    simp [fetchCategories, hOff, hEmpty]
  refine ⟨h1, ?_, rfl, ?_⟩
  · rw [h1]
    exact getColl_setColl_same st _ defaultCategories
  · rw [h1]
    have hOffS : isOfflineMode (setColl st ("categories_" ++ userKeyPart st)
        defaultCategories) = true := by
      rw [isOfflineMode_setColl]
      exact hOff
    have hlen : ((defaultCategories : List JsonVal).length == 0) = false := by
      decide
    simp [fetchCategories, hOffS, userKeyPart_setColl, getColl_setColl_same,
      hlen]

/-- Claim C10, witness: the theorem applied to a concrete offline store
with no stored categories. -/
theorem c10_witness :
    fetchCategories stOfflineEx (.ok nullV) =
      ⟨setColl stOfflineEx "categories_u1" defaultCategories, false,
        .ok (arrV defaultCategories)⟩ :=
  (c10_default_categories stOfflineEx (.ok nullV) (.ok nullV) rfl rfl).1
